import Mathlib

/-!
Verification of the coordinate/layout core of the placeholder-asset
generators: the isometric projection and draw ordering of
`docs/implementation/cartoon_isometric_mockup.py`, and the atlas
grid-packing arithmetic of `scripts/generate_placeholder_sprites.py`.

Python integers are embedded as `ℤ`/`ℕ`, Python floats as `ℚ` (all
arithmetic involved is exact affine arithmetic on dyadic constants),
image canvases as their pixel-size pair plus the list of draw commands
issued into them, and the process-global numpy random state as an
explicit stream of raw draws threaded through the embedded functions.
-/

namespace Mockup

/-- `world_to_iso` from `cartoon_isometric_mockup.py` (lines 21-24):
`iso_x = (x - y) * 0.5`, `iso_y = (x + y) * 0.25`, returned shifted by
the fixed origin `(800, 200)`. -/
def world_to_iso (x y : ℚ) : ℚ × ℚ :=
  ((x - y) * (1/2) + 800, (x + y) * (1/4) + 200)

/-- The projection exactly as the spec words it: `screenX = (worldX - worldY) * kx + originX`,
`screenY = (worldX + worldY) * ky + originY`, with `kx = 0.5`, `ky = 0.25`,
origin `(800, 200)`. Stated separately so the source function can be
compared against it. -/
def project_spec (x y : ℚ) : ℚ × ℚ :=
  ((x - y) * (1/2) + 800, (x + y) * (1/4) + 200)

/-- Depth key of a world point, `x + y`. -/
def depthKey (x y : ℚ) : ℚ := x + y

/-- One draw command of the mockup script, at the granularity of the
module-level drawing calls. World-space entities carry their world
position (and traits); UI overlays carry the screen-space anchor when
one is captured from a projected point. Rain drops carry only their
loop index — their screen positions come from the global RNG and play
no role in ordering. -/
inductive DrawCmd where
  | background
  | tile (x y : ℚ) (color : String) (biome : String)
  | tree (x y : ℚ)
  | creature (x y : ℚ) (species emotion : String) (action : Option String)
  | resource (x y : ℚ) (rtype : String)
  | rainDrop (i : ℕ)
  | uiHealthBar (anchor : ℚ × ℚ)
  | uiNeedIcon (anchor : ℚ × ℚ)
  | uiHeart (anchor : ℚ × ℚ) (i : ℕ)
  | uiSun
  | uiSunRay (angle : ℕ)
  | uiPanel
  | uiPanelText (i : ℕ)
  | uiTitle
  | uiMinimap
  | uiMinimapForest
  | uiMinimapDesert
  | uiViewRect
deriving DecidableEq

/-- Python `range(start, stop, step)` for a positive step. -/
def pyRange (start stop step : ℕ) : List ℕ :=
  (List.range ((stop - start + step - 1) / step)).map (fun k => start + step * k)

/-- Forest biome tiles (lines 59-62): `x in range(100, 600, 64)`,
`y in range(100, 600, 64)`, shade by parity of `(x + y) % 128`. -/
def forestTiles : List DrawCmd :=
  (pyRange 100 600 64).flatMap (fun x =>
    (pyRange 100 600 64).map (fun y =>
      DrawCmd.tile x y (if (x + y) % 128 = 0 then "#3a7d44" else "#4a8b54") "grass"))

/-- Desert biome tiles (lines 65-68): `x in range(700, 1200, 64)`,
`y in range(100, 600, 64)`. -/
def desertTiles : List DrawCmd :=
  (pyRange 700 1200 64).flatMap (fun x =>
    (pyRange 100 600 64).map (fun y =>
      DrawCmd.tile x y (if (x + y) % 128 = 0 then "#f4d03f" else "#fad643") "desert"))

/-- Transition-zone tiles (lines 71-73): `x in range(600, 700, 64)`,
`y in range(100, 600, 64)`. -/
def transitionTiles : List DrawCmd :=
  (pyRange 600 700 64).flatMap (fun x =>
    (pyRange 100 600 64).map (fun y => DrawCmd.tile x y "#8b9556" "grass"))

/-- `tree_positions` (line 92) and its draw loop. -/
def treeCmds : List DrawCmd :=
  [DrawCmd.tree 200 200, DrawCmd.tree 350 150, DrawCmd.tree 450 300,
    DrawCmd.tree 250 400]

/-- The `creatures` manifest (lines 221-229), in insertion order. -/
def creatures : List (ℚ × ℚ × String × String × Option String) :=
  [(300, 350, "herbivore", "happy", some "eating"),
   (400, 400, "herbivore", "happy", some "talking"),
   (500, 250, "carnivore", "angry", none),
   (150, 450, "omnivore", "sad", none),
   (350, 500, "herbivore", "happy", some "sleeping"),
   (900, 300, "herbivore", "scared", none),
   (1000, 350, "carnivore", "happy", none)]

/-- The creature draw loop (lines 231-232): one `draw_creature` call per
manifest entry, in manifest order. -/
def creatureCmds : List DrawCmd :=
  creatures.map (fun c => match c with
    | (x, y, s, e, a) => DrawCmd.creature x y s e a)

/-- The resource draw calls (lines 272-274). -/
def resourceCmds : List DrawCmd :=
  [DrawCmd.resource 250 300 "berries", DrawCmd.resource 400 200 "water",
    DrawCmd.resource 950 400 "cactus"]

/-- The weather-effect loop (lines 277-281): 20 rain strokes. -/
def rainCmds : List DrawCmd := (List.range 20).map DrawCmd.rainDrop

/-- Everything drawn before the UI section: background, the three biome
tile loops, trees, creatures, resources and rain, in script order. -/
def preUiDraws : List DrawCmd :=
  [DrawCmd.background] ++ forestTiles ++ desertTiles ++ transitionTiles ++
    treeCmds ++ creatureCmds ++ resourceCmds ++ rainCmds

/-- The UI section (lines 283-356), in script order: health bar, need
icon and heart particles all anchored to `world_to_iso(400, 400)`
captured at line 285, then sun and rays, panel and its eight text
lines, title, and the minimap with its two biome patches and view
rectangle. -/
def uiDraws : List DrawCmd :=
  [DrawCmd.uiHealthBar (world_to_iso 400 400),
   DrawCmd.uiNeedIcon (world_to_iso 400 400)] ++
  (List.range 3).map (DrawCmd.uiHeart (world_to_iso 400 400)) ++
  [DrawCmd.uiSun] ++
  (pyRange 0 360 45).map DrawCmd.uiSunRay ++
  [DrawCmd.uiPanel] ++
  (List.range 8).map DrawCmd.uiPanelText ++
  [DrawCmd.uiTitle, DrawCmd.uiMinimap, DrawCmd.uiMinimapForest,
    DrawCmd.uiMinimapDesert, DrawCmd.uiViewRect]

/-- The full draw sequence of the mockup script: the world section
followed by the UI section. -/
def sceneDraws : List DrawCmd := preUiDraws ++ uiDraws

/-- A command that draws a world-space entity (tile, tree, creature,
resource, rain particle). -/
def isWorldEntityDraw : DrawCmd → Bool
  | DrawCmd.tile _ _ _ _ => true
  | DrawCmd.tree _ _ => true
  | DrawCmd.creature _ _ _ _ _ => true
  | DrawCmd.resource _ _ _ => true
  | DrawCmd.rainDrop _ => true
  | _ => false

/-- A command that draws a screen-space UI overlay. -/
def isUIOverlayDraw : DrawCmd → Bool
  | DrawCmd.uiHealthBar _ => true
  | DrawCmd.uiNeedIcon _ => true
  | DrawCmd.uiHeart _ _ => true
  | DrawCmd.uiSun => true
  | DrawCmd.uiSunRay _ => true
  | DrawCmd.uiPanel => true
  | DrawCmd.uiPanelText _ => true
  | DrawCmd.uiTitle => true
  | DrawCmd.uiMinimap => true
  | DrawCmd.uiMinimapForest => true
  | DrawCmd.uiMinimapDesert => true
  | DrawCmd.uiViewRect => true
  | _ => false

/-- Position of a command in the final draw sequence. -/
def drawIndex (c : DrawCmd) : ℕ := sceneDraws.findIdx (· == c)

/-- The process-global numpy random state the script's generators read
(`np.random.randint`, `np.random.random`), embedded as an infinite
stream of raw nonnegative draws plus the current read position. -/
structure Rng where
  seq : ℕ → ℕ
  pos : ℕ

/-- `np.random.randint(lo, hi)`: one integer draw in `[lo, hi)`,
advancing the global state by one raw draw. -/
def randint (lo hi : ℤ) (r : Rng) : ℤ × Rng :=
  (lo + (r.seq r.pos : ℤ) % (hi - lo), ⟨r.seq, r.pos + 1⟩)

/-- `np.random.random()`: one uniform draw in `[0, 1)`, advancing the
global state by one raw draw. -/
def npRandom (r : Rng) : ℚ × Rng :=
  (((r.seq r.pos % 100 : ℕ) : ℚ) / 100, ⟨r.seq, r.pos + 1⟩)

/-- A drawing primitive issued by the shape generators. -/
inductive Prim where
  | polygon (pts : List (ℚ × ℚ)) (face : String)
  | circle (cx cy rad : ℚ) (face : String)
  | ellipse (cx cy w h : ℚ) (face : String)
  | line (x1 y1 x2 y2 : ℚ) (color : String)
  | arc (cx cy w h angle th1 th2 : ℚ) (color : String)
  | fancyBox (x y w h : ℚ) (face : String)
  | text (x y : ℚ) (s : String)
deriving DecidableEq

/-- The diamond tile polygon of `draw_iso_tile` (lines 31-36). -/
def isoTileDiamond (ix iy : ℚ) (color : String) : Prim :=
  Prim.polygon [(ix, iy), (ix + 32, iy + 16), (ix, iy + 32), (ix - 32, iy + 16)] color

/-- The grass-blade loop of `draw_iso_tile` (lines 42-48): each
iteration draws two integers from the global RNG and emits one short
line. -/
def grassLoop (ix iy : ℚ) : ℕ → Rng → List Prim × Rng
  | 0, r => ([], r)
  | n + 1, r =>
    let ox := randint (-10) 10 r
    let oy := randint (-5) 5 ox.2
    let rest := grassLoop ix iy n oy.2
    (Prim.line (ix + ox.1) (iy + oy.1 + 16) (ix + ox.1) (iy + oy.1 + 20) "#2d5016" :: rest.1,
      rest.2)

/-- The sand-dot loop of `draw_iso_tile` (lines 51-55). -/
def sandDots (ix iy : ℚ) : ℕ → Rng → List Prim × Rng
  | 0, r => ([], r)
  | n + 1, r =>
    let ox := randint (-15) 15 r
    let oy := randint (-5) 5 ox.2
    let rest := sandDots ix iy n oy.2
    (Prim.circle (ix + ox.1) (iy + oy.1 + 16) 1 "#d4a574" :: rest.1, rest.2)

/-- `draw_iso_tile` (lines 27-55): projects the world point, draws the
diamond, then biome-specific decorations whose offsets come from the
global RNG (three grass blades, or five sand dots). -/
def draw_iso_tile (x y : ℚ) (color biome : String) (r : Rng) : List Prim × Rng :=
  let p := world_to_iso x y
  let diamond := isoTileDiamond p.1 p.2 color
  if biome = "grass" then
    let g := grassLoop p.1 p.2 3 r
    (diamond :: g.1, g.2)
  else if biome = "desert" then
    let d := sandDots p.1 p.2 5 r
    (diamond :: d.1, d.2)
  else ([diamond], r)

/-- The RNG-independent part of `draw_creature` (lines 97-207):
shadow, body, head, eyes, optional eye sparkles, pupils, the
emotion-specific features and the action-specific additions, in source
order. The sleeping branch of the source retroactively recolors the
already-added eye patches to the body color; the embedding records the
color the patches have when the canvas is rendered. -/
def creatureBasePrims (x y : ℚ) (species emotion : String) (action : Option String) :
    List Prim :=
  let p := world_to_iso x y
  let ix := p.1
  let iy := p.2
  let bodyColor := if species = "herbivore" then "#7cb342"
    else if species = "carnivore" then "#e74c3c" else "#8b6914"
  let size : ℚ := if species = "herbivore" then 30
    else if species = "carnivore" then 35 else 32
  let eyeSize := size * (8/25)
  let eyeColor := if action = some "sleeping" then bodyColor else "white"
  let pupilY := if emotion = "happy" then iy + 52
    else if emotion = "scared" then iy + 50
    else if emotion = "sad" then iy + 49 else iy + 52
  [Prim.ellipse ix (iy - 5) 40 20 "black",
   Prim.circle ix (iy + 20) size bodyColor,
   Prim.circle ix (iy + 50) (size * (4/5)) bodyColor,
   Prim.circle (ix - 10) (iy + 52) eyeSize eyeColor,
   Prim.circle (ix + 10) (iy + 52) eyeSize eyeColor] ++
  (if emotion = "happy" then
    [Prim.circle (ix - 10) (iy + 55) 2 "white", Prim.circle (ix + 10) (iy + 55) 2 "white"]
   else []) ++
  [Prim.circle (ix - 10) pupilY (eyeSize * (1/2)) "black",
   Prim.circle (ix + 10) pupilY (eyeSize * (1/2)) "black"] ++
  (if emotion = "happy" then
    [Prim.arc ix (iy + 45) 20 15 0 200 340 "#2a2a2a",
     Prim.circle (ix - 20) (iy + 45) 5 "#ff6b6b", Prim.circle (ix + 20) (iy + 45) 5 "#ff6b6b"]
   else if emotion = "sad" then
    [Prim.arc ix (iy + 40) 20 15 0 20 160 "#2a2a2a",
     Prim.ellipse (ix - 15) (iy + 45) 3 6 "#4fc3f7"]
   else if emotion = "angry" then
    [Prim.line (ix - 15) (iy + 60) (ix - 5) (iy + 58) "#2a2a2a",
     Prim.line (ix + 5) (iy + 58) (ix + 15) (iy + 60) "#2a2a2a"]
   else []) ++
  (match action with
   | some "eating" => [Prim.circle ix (iy + 40) 5 "#e74c3c"]
   | some "sleeping" =>
      [Prim.text (ix + 30) (iy + 70) "Z", Prim.text (ix + 40) (iy + 80) "z",
       Prim.text (ix + 48) (iy + 88) "z"]
   | some "talking" =>
      [Prim.fancyBox (ix + 40) (iy + 60) 80 40 "white",
       Prim.polygon [(ix + 40, iy + 65), (ix + 30, iy + 55), (ix + 45, iy + 60)] "white",
       Prim.text (ix + 65) (iy + 75) "❤️", Prim.text (ix + 85) (iy + 75) "😊"]
   | _ => [])

/-- The genetic-variation spot loop of `draw_creature` (lines 210-216):
each spot draws two integers from the global RNG. -/
def spotsLoop (ix iy : ℚ) : ℕ → Rng → List Prim × Rng
  | 0, r => ([], r)
  | n + 1, r =>
    let sx := randint (-15) 15 r
    let sy := randint 10 30 sx.2
    let rest := spotsLoop ix iy n sy.2
    (Prim.circle (ix + sx.1) (iy + sy.1) 3 "#2a2a2a" :: rest.1, rest.2)

/-- `draw_creature` (lines 97-218): the fixed primitives followed by
the spots pattern when `np.random.random() > 0.5`, returning the
projected anchor `(ix, iy)` as in the source. -/
def draw_creature (x y : ℚ) (species emotion : String) (action : Option String)
    (r : Rng) : List Prim × (ℚ × ℚ) × Rng :=
  let p := world_to_iso x y
  let t := npRandom r
  let spots := if t.1 > 1/2 then spotsLoop p.1 p.2 3 t.2 else ([], t.2)
  (creatureBasePrims x y species emotion action ++ spots.1, p, spots.2)

end Mockup

namespace Sprites

/-- The clamped per-variant color component from `create_terrain_atlas`
(`generate_placeholder_sprites.py` lines 82-85):
`min(255, max(0, c + (variant - 2) * 10))`. -/
def variantComponent (c v : ℤ) : ℤ :=
  min 255 (max 0 (c + (v - 2) * 10))

/-- The per-variant fill color: the clamp applied to each of the three
components of the biome base color (alpha 255 is appended at the call
site). -/
def variant_color (color : ℤ × ℤ × ℤ) (v : ℤ) : ℤ × ℤ × ℤ :=
  (variantComponent color.1 v, variantComponent color.2.1 v,
    variantComponent color.2.2 v)

/-- Declared grid of an atlas: categories (semantic rows in the spec's
model), variants per category, and fixed cell dimensions. -/
structure AtlasGrid where
  numCategories : ℕ
  variantsPerCategory : ℕ
  cellWidth : ℕ
  cellHeight : ℕ
deriving DecidableEq

/-- The creature atlas grid: 8 animations × 8 frames of 48×48 cells
(`create_creature_atlas`). -/
def creatureGrid : AtlasGrid := ⟨8, 8, 48, 48⟩

/-- The terrain atlas grid: 5 biomes × 4 variants of 64×32 cells
(`create_terrain_atlas`). -/
def terrainGrid : AtlasGrid := ⟨5, 4, 64, 32⟩

/-- A pixel rectangle `(x0, y0, x1, y1)`. -/
structure Rect where
  x0 : ℕ
  y0 : ℕ
  x1 : ℕ
  y1 : ℕ
deriving DecidableEq

/-- Pixel membership in a rect (half-open on the right/bottom, matching
pixel-grid tiling). -/
def Rect.mem (r : Rect) (px py : ℕ) : Prop :=
  r.x0 ≤ px ∧ px < r.x1 ∧ r.y0 ≤ py ∧ py < r.y1

instance (r : Rect) (px py : ℕ) : Decidable (r.mem px py) := by
  unfold Rect.mem; infer_instance

/-- Two rects are disjoint when no pixel lies in both. -/
def Rect.Disjoint (r s : Rect) : Prop :=
  ∀ px py : ℕ, ¬ (r.mem px py ∧ s.mem px py)

/-- Cell rect of the creature atlas, from `create_creature_atlas`
(lines 25-34): `y_offset = anim_idx * 48`, `x_offset = frame * 48`,
each cell spanning 48×48 from that offset. Frames (variants) advance
along x, animations (category rows) along y. -/
def creatureCellRect (animIdx frame : ℕ) : Rect :=
  ⟨frame * 48, animIdx * 48, frame * 48 + 48, animIdx * 48 + 48⟩

/-- Cell rect of the terrain atlas, from `create_terrain_atlas`
(lines 66-71): `x_offset = biome_idx * 64`, `y_offset = variant * 32`,
each cell spanning 64×32 from that offset. Biomes (category rows)
advance along x, variants along y — transposed relative to the creature
atlas. -/
def terrainCellRect (biomeIdx variant : ℕ) : Rect :=
  ⟨biomeIdx * 64, variant * 32, biomeIdx * 64 + 64, variant * 32 + 32⟩

/-- The cell rect exactly as the spec words it:
`rect(category, variantIndex) = (variantIndex*cellWidth, category.rowIndex*cellHeight, +cellWidth, +cellHeight)`. -/
def rect_spec (g : AtlasGrid) (rowIndex variantIndex : ℕ) : Rect :=
  ⟨variantIndex * g.cellWidth, rowIndex * g.cellHeight,
    variantIndex * g.cellWidth + g.cellWidth,
    rowIndex * g.cellHeight + g.cellHeight⟩

/-- Canvas size of the creature atlas as created by
`Image.new('RGBA', (384, 384), ...)` (line 10), before any drawing. -/
def creatureCanvasSize : ℕ × ℕ := (384, 384)

/-- Canvas size of the terrain atlas as created by
`Image.new('RGBA', (320, 128), ...)` (line 55), before any drawing. -/
def terrainCanvasSize : ℕ × ℕ := (320, 128)

/-- Error conditions of the atlas grid packer. -/
inductive AtlasError where
  | outOfRange
deriving DecidableEq

/-- Modelled from the spec: the source's two atlas generators only ever
iterate over in-range `(row, variant)` pairs and expose no cell-request
operation, so the `OutOfRange` error path of spec §4.3/§7 has no code
under `src/`; this models it. A cell request against a declared grid:
in range it yields the spec's cell rect, out of range it fails with
`OutOfRange`. -/
def requestCellRect (g : AtlasGrid) (rowIndex variantIndex : ℕ) :
    Except AtlasError Rect :=
  if rowIndex < g.numCategories ∧ variantIndex < g.variantsPerCategory then
    Except.ok (rect_spec g rowIndex variantIndex)
  else
    Except.error AtlasError.outOfRange

/-- Modelled from the spec: drawing one cell into a canvas, the canvas
embedded as the list of cell fills committed to it so far. On an
out-of-range request the canvas is returned unchanged alongside the
error. -/
def drawCell (g : AtlasGrid) (canvas : List (Rect × (ℤ × ℤ × ℤ × ℤ)))
    (rowIndex variantIndex : ℕ) (color : ℤ × ℤ × ℤ × ℤ) :
    Except AtlasError Unit × List (Rect × (ℤ × ℤ × ℤ × ℤ)) :=
  match requestCellRect g rowIndex variantIndex with
  | Except.ok r => (Except.ok (), canvas ++ [(r, color)])
  | Except.error e => (Except.error e, canvas)

end Sprites

set_option maxRecDepth 100000

namespace Mockup

/-- The world-entity section of the draw sequence contains no UI
overlay draw. -/
lemma preUiDraws_no_ui : ∀ c ∈ preUiDraws, isUIOverlayDraw c = false := by
  decide

/-- The UI section of the draw sequence contains no world-entity
draw. -/
lemma uiDraws_no_world : ∀ c ∈ uiDraws, isWorldEntityDraw c = false := by
  decide

lemma preUiDraws_len : preUiDraws.length = 179 := by decide

lemma sceneDraws_len : sceneDraws.length = 207 := by decide

end Mockup

/-- Claim C2: the projection returns `((x - y) * 0.5 + 800, (x + y) * 0.25 + 200)`
for every world point, exactly the spec's affine form with `kx = 0.5`,
`ky = 0.25`, origin `(800, 200)`; it is a total pure function, so two
calls on the same input yield identical results. -/
theorem world_to_iso_matches_spec_and_deterministic :
    ∀ x y : ℚ,
      Mockup.world_to_iso x y = Mockup.project_spec x y ∧
      Mockup.world_to_iso x y = ((x - y) * (1/2) + 800, (x + y) * (1/4) + 200) ∧
      Mockup.world_to_iso x y = Mockup.world_to_iso x y := by
  intro x y
  exact ⟨rfl, rfl, rfl⟩

/-- Claim C9: the projected screen y is `(x + y) * 0.25 + 200`, and
ordering world points by depth key `x + y` coincides exactly with
ordering them by projected screen y. -/
theorem depthKey_orders_iff_screen_y :
    ∀ p q : ℚ × ℚ,
      (Mockup.world_to_iso p.1 p.2).2 = (p.1 + p.2) * (1/4) + 200 ∧
      (Mockup.depthKey p.1 p.2 ≤ Mockup.depthKey q.1 q.2 ↔
        (Mockup.world_to_iso p.1 p.2).2 ≤ (Mockup.world_to_iso q.1 q.2).2) := by
  intro p q
  constructor
  · rfl
  · unfold Mockup.world_to_iso Mockup.depthKey
    simp only
    constructor
    · intro h; nlinarith
    · intro h; nlinarith

/-- Claim C3, counterexample: in the mockup's own manifest the creature
at `(500, 250)` has a strictly smaller depth key than the creature at
`(400, 400)`, yet it is drawn strictly later — the script draws in
manifest insertion order and never depth-sorts. -/
theorem creature_drawn_against_depth_order :
    Mockup.depthKey 500 250 < Mockup.depthKey 400 400 ∧
    Mockup.DrawCmd.creature 500 250 "carnivore" "angry" none ∈ Mockup.sceneDraws ∧
    Mockup.DrawCmd.creature 400 400 "herbivore" "happy" (some "talking") ∈ Mockup.sceneDraws ∧
    Mockup.drawIndex (Mockup.DrawCmd.creature 400 400 "herbivore" "happy" (some "talking")) <
      Mockup.drawIndex (Mockup.DrawCmd.creature 500 250 "carnivore" "angry" none) := by
  refine ⟨by norm_num [Mockup.depthKey], by decide, by decide, by decide⟩

/-- Claim C3, amended: placed entities are drawn in manifest insertion
order, with depth keys playing no role — an earlier manifest entry is
always drawn strictly earlier, whatever the two depth keys are. -/
theorem creatures_drawn_in_manifest_order :
    ∀ l : ℕ, l < Mockup.creatureCmds.length → ∀ k : ℕ, k < l →
      Mockup.drawIndex (Mockup.creatureCmds.getD k Mockup.DrawCmd.background) <
        Mockup.drawIndex (Mockup.creatureCmds.getD l Mockup.DrawCmd.background) := by
  decide

/-- Witness for `creatures_drawn_in_manifest_order` at the manifest
entries 1 and 2. -/
theorem creatures_drawn_in_manifest_order_witness :
    2 < Mockup.creatureCmds.length ∧ 1 < 2 ∧
      Mockup.drawIndex (Mockup.creatureCmds.getD 1 Mockup.DrawCmd.background) <
        Mockup.drawIndex (Mockup.creatureCmds.getD 2 Mockup.DrawCmd.background) :=
  ⟨by decide, by decide, creatures_drawn_in_manifest_order 2 (by decide) 1 (by decide)⟩

/-- In an appended draw list whose first part has no UI overlay draw
and whose second part has no world-entity draw, every world-entity draw
comes before every UI overlay draw. -/
lemma world_section_before_ui_section (l1 l2 : List Mockup.DrawCmd)
    (h1 : ∀ c ∈ l1, Mockup.isUIOverlayDraw c = false)
    (h2 : ∀ c ∈ l2, Mockup.isWorldEntityDraw c = false)
    (i j : ℕ)
    (hw : Mockup.isWorldEntityDraw ((l1 ++ l2).getD i Mockup.DrawCmd.background) = true)
    (hu : Mockup.isUIOverlayDraw ((l1 ++ l2).getD j Mockup.DrawCmd.background) = true) :
    i < j := by
  have hi : i < l1.length := by
    by_contra hni
    push_neg at hni
    by_cases hib : i < (l1 ++ l2).length
    · have hlen2 : i < l1.length + l2.length := by
        rw [← List.length_append]; exact hib
      have hlt : i - l1.length < l2.length := by omega
      have hgd : (l1 ++ l2).getD i Mockup.DrawCmd.background = (l1 ++ l2)[i] :=
        List.getD_eq_getElem _ _ hib
      rw [hgd] at hw
      have hsub : (l1 ++ l2)[i] = l2[i - l1.length] := List.getElem_append_right hni
      rw [hsub] at hw
      have hmem := @List.getElem_mem Mockup.DrawCmd l2 (i - l1.length) hlt
      rw [h2 _ hmem] at hw
      exact Bool.false_ne_true hw
    · push_neg at hib
      rw [List.getD_eq_default _ _ hib] at hw
      exact Bool.false_ne_true hw
  have hj : l1.length ≤ j := by
    by_contra hnj
    push_neg at hnj
    have hjb : j < (l1 ++ l2).length := by
      rw [List.length_append]; omega
    have hgd : (l1 ++ l2).getD j Mockup.DrawCmd.background = (l1 ++ l2)[j] :=
      List.getD_eq_getElem _ _ hjb
    rw [hgd] at hu
    have hsub : (l1 ++ l2)[j] = l1[j] := List.getElem_append_left hnj
    rw [hsub] at hu
    have hmem := @List.getElem_mem Mockup.DrawCmd l1 j hnj
    rw [h1 _ hmem] at hu
    exact Bool.false_ne_true hu
  omega

/-- Claim C7: every UI overlay draw (health bar, need icon, heart
particles, sun, panel, title, minimap) occurs after every world-entity
draw in the final sequence; in particular the health bar anchored to
the projected point of the creature at `(400, 400)` — an entity drawn
in the world pass — is drawn in the always-last UI pass. -/
theorem ui_overlays_drawn_after_world_entities :
    (∀ i j : ℕ,
      Mockup.isWorldEntityDraw (Mockup.sceneDraws.getD i Mockup.DrawCmd.background) = true →
      Mockup.isUIOverlayDraw (Mockup.sceneDraws.getD j Mockup.DrawCmd.background) = true →
      i < j) ∧
    Mockup.DrawCmd.uiHealthBar (Mockup.world_to_iso 400 400) ∈ Mockup.sceneDraws ∧
    Mockup.DrawCmd.creature 400 400 "herbivore" "happy" (some "talking") ∈ Mockup.sceneDraws := by
  refine ⟨?_, by simp [Mockup.sceneDraws, Mockup.uiDraws], by decide⟩
  intro i j hw hu
  exact world_section_before_ui_section Mockup.preUiDraws Mockup.uiDraws
    Mockup.preUiDraws_no_ui Mockup.uiDraws_no_world i j hw hu

/-- Witness for `ui_overlays_drawn_after_world_entities`: the first
forest tile (index 1) is drawn before the UI panel (index 193). -/
theorem ui_overlays_drawn_after_world_entities_witness :
    Mockup.isWorldEntityDraw (Mockup.sceneDraws.getD 1 Mockup.DrawCmd.background) = true ∧
    Mockup.isUIOverlayDraw (Mockup.sceneDraws.getD 193 Mockup.DrawCmd.background) = true ∧
    1 < 193 :=
  ⟨by decide, by decide,
    ui_overlays_drawn_after_world_entities.1 1 193 (by decide) (by decide)⟩

/-- Claim C1, counterexample: in the terrain atlas the cell of category
Forest (row 0), variant 1, is not at the spec formula's rectangle
`(1*64, 0*32, 128, 32)` — the code places it at `(0, 32, 64, 64)`,
because `create_terrain_atlas` advances categories along x and variants
along y. -/
theorem terrain_cell_defies_spec_formula :
    Sprites.terrainCellRect 0 1 ≠ Sprites.rect_spec Sprites.terrainGrid 0 1 ∧
    Sprites.terrainCellRect 0 1 = ⟨0, 32, 64, 64⟩ := by
  refine ⟨by decide, by decide⟩

/-- Claim C1, amended: in the creature atlas every in-grid cell rect
follows the spec formula `(v*cellWidth, row*cellHeight, +cellWidth,
+cellHeight)` (variants along x, category rows along y), recomputation
is idempotent, and the Idle/Walk scenario holds
(`rect("Walk", 2) = (96, 48, 144, 96)` for 48×48 cells); the terrain
atlas instead uses the transposed layout: its cell of `(row, variant)`
equals the spec formula applied to the transposed grid with row and
variant exchanged. -/
theorem cell_rects_follow_grid_layout :
    (∀ animIdx frame : ℕ,
      animIdx < Sprites.creatureGrid.numCategories →
      frame < Sprites.creatureGrid.variantsPerCategory →
      Sprites.creatureCellRect animIdx frame =
        Sprites.rect_spec Sprites.creatureGrid animIdx frame) ∧
    (∀ animIdx frame : ℕ,
      Sprites.creatureCellRect animIdx frame = Sprites.creatureCellRect animIdx frame) ∧
    Sprites.rect_spec ⟨2, 4, 48, 48⟩ 1 2 = ⟨96, 48, 144, 96⟩ ∧
    (∀ biomeIdx variant : ℕ,
      biomeIdx < Sprites.terrainGrid.numCategories →
      variant < Sprites.terrainGrid.variantsPerCategory →
      Sprites.terrainCellRect biomeIdx variant =
        Sprites.rect_spec
          ⟨Sprites.terrainGrid.variantsPerCategory, Sprites.terrainGrid.numCategories,
            Sprites.terrainGrid.cellWidth, Sprites.terrainGrid.cellHeight⟩
          variant biomeIdx) := by
  exact ⟨fun _ _ _ _ => rfl, fun _ _ => rfl, by decide, fun _ _ _ _ => rfl⟩

/-- Witness for `cell_rects_follow_grid_layout` at creature cell
(1, 2) and terrain cell (0, 1). -/
theorem cell_rects_follow_grid_layout_witness :
    1 < Sprites.creatureGrid.numCategories ∧
    2 < Sprites.creatureGrid.variantsPerCategory ∧
    Sprites.creatureCellRect 1 2 = Sprites.rect_spec Sprites.creatureGrid 1 2 ∧
    0 < Sprites.terrainGrid.numCategories ∧
    1 < Sprites.terrainGrid.variantsPerCategory ∧
    Sprites.terrainCellRect 0 1 =
      Sprites.rect_spec ⟨4, 5, 64, 32⟩ 1 0 :=
  ⟨by decide, by decide, cell_rects_follow_grid_layout.1 1 2 (by decide) (by decide),
    by decide, by decide,
    cell_rects_follow_grid_layout.2.2.2 0 1 (by decide) (by decide)⟩

/-- Claim C4, counterexample: the terrain canvas is created as
`(320, 128)`, not the claimed
`variantsPerCategory*cellWidth × categories.length*cellHeight`
`= (4*64, 5*32) = (256, 160)`. -/
theorem terrain_canvas_defies_spec_formula :
    Sprites.terrainCanvasSize ≠
      (Sprites.terrainGrid.variantsPerCategory * Sprites.terrainGrid.cellWidth,
        Sprites.terrainGrid.numCategories * Sprites.terrainGrid.cellHeight) ∧
    Sprites.terrainCanvasSize = (320, 128) := by
  refine ⟨by decide, by decide⟩

/-- Claim C4, amended: both canvases are allocated once, before any
drawing, with their full grid size; the creature canvas follows the
claimed formula `variants*cellWidth × categories*cellHeight`
`= (8*48, 8*48) = (384, 384)`, while the terrain canvas uses the
transposed formula `categories*cellWidth × variants*cellHeight`
`= (5*64, 4*32) = (320, 128)`. -/
theorem canvas_sizes_match_grids :
    Sprites.creatureCanvasSize =
      (Sprites.creatureGrid.variantsPerCategory * Sprites.creatureGrid.cellWidth,
        Sprites.creatureGrid.numCategories * Sprites.creatureGrid.cellHeight) ∧
    Sprites.terrainCanvasSize =
      (Sprites.terrainGrid.numCategories * Sprites.terrainGrid.cellWidth,
        Sprites.terrainGrid.variantsPerCategory * Sprites.terrainGrid.cellHeight) := by
  refine ⟨by decide, by decide⟩

/-- Claim C5: within each atlas's declared grid, the cell rects of any
two distinct `(rowIndex, variantIndex)` pairs are disjoint, every cell
lies inside the canvas, and every canvas pixel lies in some in-grid
cell — the cells exactly tile the computed canvas with no gaps and no
overdraw, for the creature atlas and for the terrain atlas alike. -/
theorem cell_rects_tile_canvas :
    (∀ r1 v1 r2 v2 : ℕ,
      r1 < Sprites.creatureGrid.numCategories →
      v1 < Sprites.creatureGrid.variantsPerCategory →
      r2 < Sprites.creatureGrid.numCategories →
      v2 < Sprites.creatureGrid.variantsPerCategory →
      (r1, v1) ≠ (r2, v2) →
      Sprites.Rect.Disjoint (Sprites.creatureCellRect r1 v1) (Sprites.creatureCellRect r2 v2)) ∧
    (∀ px py : ℕ, px < Sprites.creatureCanvasSize.1 → py < Sprites.creatureCanvasSize.2 →
      ∃ r v : ℕ, r < Sprites.creatureGrid.numCategories ∧
        v < Sprites.creatureGrid.variantsPerCategory ∧
        (Sprites.creatureCellRect r v).mem px py) ∧
    (∀ r v px py : ℕ, r < Sprites.creatureGrid.numCategories →
      v < Sprites.creatureGrid.variantsPerCategory →
      (Sprites.creatureCellRect r v).mem px py →
      px < Sprites.creatureCanvasSize.1 ∧ py < Sprites.creatureCanvasSize.2) ∧
    (∀ r1 v1 r2 v2 : ℕ,
      r1 < Sprites.terrainGrid.numCategories →
      v1 < Sprites.terrainGrid.variantsPerCategory →
      r2 < Sprites.terrainGrid.numCategories →
      v2 < Sprites.terrainGrid.variantsPerCategory →
      (r1, v1) ≠ (r2, v2) →
      Sprites.Rect.Disjoint (Sprites.terrainCellRect r1 v1) (Sprites.terrainCellRect r2 v2)) ∧
    (∀ px py : ℕ, px < Sprites.terrainCanvasSize.1 → py < Sprites.terrainCanvasSize.2 →
      ∃ r v : ℕ, r < Sprites.terrainGrid.numCategories ∧
        v < Sprites.terrainGrid.variantsPerCategory ∧
        (Sprites.terrainCellRect r v).mem px py) ∧
    (∀ r v px py : ℕ, r < Sprites.terrainGrid.numCategories →
      v < Sprites.terrainGrid.variantsPerCategory →
      (Sprites.terrainCellRect r v).mem px py →
      px < Sprites.terrainCanvasSize.1 ∧ py < Sprites.terrainCanvasSize.2) := by
  refine ⟨?_, ?_, ?_, ?_, ?_, ?_⟩
  · intro r1 v1 r2 v2 hr1 hv1 hr2 hv2 hne px py hmem
    simp only [Sprites.creatureCellRect, Sprites.Rect.mem] at hmem
    apply hne
    have hv : v1 = v2 := by omega
    have hr : r1 = r2 := by omega
    rw [hv, hr]
  · intro px py hx hy
    simp only [Sprites.creatureCanvasSize] at hx hy
    refine ⟨py / 48, px / 48, by simp only [Sprites.creatureGrid]; omega,
      by simp only [Sprites.creatureGrid]; omega, ?_⟩
    simp only [Sprites.creatureCellRect, Sprites.Rect.mem]
    omega
  · intro r v px py hr hv hmem
    simp only [Sprites.creatureCellRect, Sprites.Rect.mem] at hmem
    simp only [Sprites.creatureGrid] at hr hv
    simp only [Sprites.creatureCanvasSize]
    omega
  · intro r1 v1 r2 v2 hr1 hv1 hr2 hv2 hne px py hmem
    simp only [Sprites.terrainCellRect, Sprites.Rect.mem] at hmem
    apply hne
    have hr : r1 = r2 := by omega
    have hv : v1 = v2 := by omega
    rw [hv, hr]
  · intro px py hx hy
    simp only [Sprites.terrainCanvasSize] at hx hy
    refine ⟨px / 64, py / 32, by simp only [Sprites.terrainGrid]; omega,
      by simp only [Sprites.terrainGrid]; omega, ?_⟩
    simp only [Sprites.terrainCellRect, Sprites.Rect.mem]
    omega
  · intro r v px py hr hv hmem
    simp only [Sprites.terrainCellRect, Sprites.Rect.mem] at hmem
    simp only [Sprites.terrainGrid] at hr hv
    simp only [Sprites.terrainCanvasSize]
    omega

/-- Witness for `cell_rects_tile_canvas`: creature cells (0,0) and
(0,1) are disjoint at pixel (50, 10), and terrain pixel (100, 50) is
covered by an in-grid cell. -/
theorem cell_rects_tile_canvas_witness :
    ¬ ((Sprites.creatureCellRect 0 0).mem 50 10 ∧ (Sprites.creatureCellRect 0 1).mem 50 10) ∧
    (∃ r v : ℕ, r < Sprites.terrainGrid.numCategories ∧
      v < Sprites.terrainGrid.variantsPerCategory ∧
      (Sprites.terrainCellRect r v).mem 100 50) :=
  ⟨cell_rects_tile_canvas.1 0 0 0 1 (by decide) (by decide) (by decide) (by decide)
      (by decide) 50 10,
    cell_rects_tile_canvas.2.2.2.2.1 100 50 (by decide) (by decide)⟩

/-- Claim C6: a cell request with `variantIndex ≥ variantsPerCategory`
or `rowIndex ≥ categories.length` fails with `OutOfRange` and leaves
the canvas unchanged — it never wraps into an adjacent cell; an
in-range request succeeds. Settled against the spec-modelled request
operation, since the source generators expose no request path. -/
theorem out_of_range_request_rejected (g : Sprites.AtlasGrid)
    (canvas : List (Sprites.Rect × (ℤ × ℤ × ℤ × ℤ)))
    (rowIndex variantIndex : ℕ) (color : ℤ × ℤ × ℤ × ℤ)
    (h : g.variantsPerCategory ≤ variantIndex ∨ g.numCategories ≤ rowIndex) :
    (Sprites.drawCell g canvas rowIndex variantIndex color).1 =
      Except.error Sprites.AtlasError.outOfRange ∧
    (Sprites.drawCell g canvas rowIndex variantIndex color).2 = canvas ∧
    Sprites.requestCellRect g rowIndex variantIndex =
      Except.error Sprites.AtlasError.outOfRange := by
  have hreq : Sprites.requestCellRect g rowIndex variantIndex =
      Except.error Sprites.AtlasError.outOfRange := by
    unfold Sprites.requestCellRect
    rw [if_neg]
    omega
  refine ⟨?_, ?_, hreq⟩ <;> simp [Sprites.drawCell, hreq]

/-- Witness for `out_of_range_request_rejected`: requesting variant 8
of row 0 against the creature grid (8 variants per category) fails and
writes nothing. -/
theorem out_of_range_request_rejected_witness :
    Sprites.creatureGrid.variantsPerCategory ≤ 8 ∧
    (Sprites.drawCell Sprites.creatureGrid [] 0 8 (0, 0, 0, 255)).1 =
      Except.error Sprites.AtlasError.outOfRange ∧
    (Sprites.drawCell Sprites.creatureGrid [] 0 8 (0, 0, 0, 255)).2 = [] :=
  ⟨by decide,
    (out_of_range_request_rejected Sprites.creatureGrid [] 0 8 (0, 0, 0, 255)
      (Or.inl (by decide))).1,
    (out_of_range_request_rejected Sprites.creatureGrid [] 0 8 (0, 0, 0, 255)
      (Or.inl (by decide))).2.1⟩

/-- Claim C10: the clamped per-variant color component is always in
`[0, 255]` — for components of the in-range biome palette and any
variant index, and indeed for every integer component and variant — so
every per-variant fill color handed to the drawing surface is a valid
RGBA byte tuple. -/
theorem variant_color_components_in_byte_range :
    ∀ c v : ℤ, 0 ≤ Sprites.variantComponent c v ∧ Sprites.variantComponent c v ≤ 255 ∧
      ∀ color : ℤ × ℤ × ℤ,
        0 ≤ (Sprites.variant_color color v).1 ∧ (Sprites.variant_color color v).1 ≤ 255 ∧
        0 ≤ (Sprites.variant_color color v).2.1 ∧ (Sprites.variant_color color v).2.1 ≤ 255 ∧
        0 ≤ (Sprites.variant_color color v).2.2 ∧ (Sprites.variant_color color v).2.2 ≤ 255 := by
  intro c v
  refine ⟨?_, ?_, ?_⟩
  · simp only [Sprites.variantComponent]; omega
  · simp only [Sprites.variantComponent]; omega
  · intro color
    refine ⟨?_, ?_, ?_, ?_, ?_, ?_⟩ <;>
      simp only [Sprites.variant_color, Sprites.variantComponent] <;> omega

/-- Each run of the spot loop emits exactly as many spots as
iterations. -/
lemma spotsLoop_length (ix iy : ℚ) :
    ∀ n r, ((Mockup.spotsLoop ix iy n r).1).length = n := by
  intro n
  induction n with
  | zero => intro r; rfl
  | succ k ih => intro r; simp [Mockup.spotsLoop, ih]

/-- Claim C8, counterexample: two calls of a shape generator with
identical screen point and traits but different global RNG states
produce different primitive sequences — the randomness is the
process-global numpy state, not a source scoped to the call, so the
generators are not pure functions of their inputs alone. -/
theorem generator_output_depends_on_global_rng :
    (Mockup.draw_iso_tile 0 0 "#4a8b54" "grass" ⟨fun _ => 0, 0⟩).1 ≠
      (Mockup.draw_iso_tile 0 0 "#4a8b54" "grass" ⟨fun _ => 1, 0⟩).1 ∧
    ((Mockup.draw_creature 300 350 "herbivore" "happy" (some "eating")
        ⟨fun _ => 60, 0⟩).1).length ≠
      ((Mockup.draw_creature 300 350 "herbivore" "happy" (some "eating")
        ⟨fun _ => 0, 0⟩).1).length := by
  constructor
  · intro h
    simp [Mockup.draw_iso_tile, Mockup.grassLoop, Mockup.randint, Mockup.world_to_iso,
      Mockup.isoTileDiamond] at h
  · have h1 : ((Mockup.npRandom ⟨fun _ => 60, 0⟩).1 > (1/2 : ℚ)) := by
      norm_num [Mockup.npRandom]
    have h2 : ¬ ((Mockup.npRandom ⟨fun _ => 0, 0⟩).1 > (1/2 : ℚ)) := by
      norm_num [Mockup.npRandom]
    simp only [Mockup.draw_creature]
    rw [if_pos h1, if_neg h2]
    simp [spotsLoop_length]

/-- Claim C8, amended: each shape generator is a deterministic function
of its screen point, traits and the global RNG state; the randomness
alters only the cosmetic scatter primitives — the returned projected
anchor of `draw_creature` is RNG-independent, its output is always its
fixed primitives followed by zero or three spot circles, and
`draw_iso_tile` always begins with the RNG-independent diamond. -/
theorem generators_deterministic_given_rng_state :
    (∀ (x y : ℚ) (s e : String) (a : Option String) (r : Mockup.Rng),
      (Mockup.draw_creature x y s e a r).2.1 = Mockup.world_to_iso x y) ∧
    (∀ (x y : ℚ) (s e : String) (a : Option String) (r : Mockup.Rng),
      ∃ spots : List Mockup.Prim,
        (Mockup.draw_creature x y s e a r).1 =
          Mockup.creatureBasePrims x y s e a ++ spots ∧
        (spots.length = 0 ∨ spots.length = 3)) ∧
    (∀ (x y : ℚ) (c b : String) (r : Mockup.Rng),
      ∃ rest : List Mockup.Prim,
        (Mockup.draw_iso_tile x y c b r).1 =
          Mockup.isoTileDiamond (Mockup.world_to_iso x y).1 (Mockup.world_to_iso x y).2 c ::
            rest) ∧
    (∀ (x y : ℚ) (s e : String) (a : Option String) (r : Mockup.Rng),
      Mockup.draw_creature x y s e a r = Mockup.draw_creature x y s e a r) := by
  refine ⟨fun _ _ _ _ _ _ => rfl, ?_, ?_, fun _ _ _ _ _ _ => rfl⟩
  · intro x y s e a r
    by_cases h : (Mockup.npRandom r).1 > 1/2
    · exact ⟨(Mockup.spotsLoop (Mockup.world_to_iso x y).1 (Mockup.world_to_iso x y).2 3
          (Mockup.npRandom r).2).1,
        by simp only [Mockup.draw_creature]; rw [if_pos h],
        Or.inr (spotsLoop_length _ _ 3 _)⟩
    · exact ⟨[], by simp only [Mockup.draw_creature]; rw [if_neg h], Or.inl rfl⟩
  · intro x y c b r
    by_cases hg : b = "grass"
    · exact ⟨(Mockup.grassLoop (Mockup.world_to_iso x y).1 (Mockup.world_to_iso x y).2 3 r).1,
        by simp [Mockup.draw_iso_tile, hg]⟩
    · by_cases hd : b = "desert"
      · exact ⟨(Mockup.sandDots (Mockup.world_to_iso x y).1 (Mockup.world_to_iso x y).2 5 r).1,
          by simp [Mockup.draw_iso_tile, hg, hd]⟩
      · exact ⟨[], by simp [Mockup.draw_iso_tile, hg, hd]⟩
